import Mathlib

/-!
Verification of the GINA ground-control-station link layer.

This file gives a shallow embedding of the protocol/link core of the GINA
repository (`GCS/main.py`, `GCS/serial_monitor.py`, `GCS/ui.py`,
`GCS/utils.py`) and proves the specification's claims about it.

Python strings are modelled as Lean `String` values (lists of characters);
Python floats are modelled as rationals, so arithmetic such as
`g * 9.81 / 1000` is exact; fallible Python code (code that can raise) is
modelled with `Except`.
-/

namespace GCS

/-! ## Python string primitives used by the source -/

/-- Model of Python `str.startswith`: prefix test on the character sequence. -/
def pyStartsWith (s pre : String) : Bool :=
  pre.data.isPrefixOf s.data

/-- Characters stripped by Python `str.strip()` with no argument. -/
def pySpace (c : Char) : Bool :=
  c = ' ' || c = '\t' || c = '\n' || c = '\r' || c = '\x0b' || c = '\x0c'

/-- Model of Python `str.strip()`: drop whitespace from both ends. -/
def pyStrip (s : String) : String :=
  String.mk (((s.data.dropWhile pySpace).reverse.dropWhile pySpace).reverse)

/-- Model of the Python slice `s[4:]`: drop the first four characters. -/
def pyDrop4 (s : String) : String :=
  String.mk (s.data.drop 4)

/-! ## JSON values and a model of `json.loads`

`displaySerialData` feeds the payload of a `TLM:` line to `json.loads`.
We model the values `json.loads` can produce (numbers as rationals) and give
an executable recursive-descent reading of the JSON grammar, faithful to
`json.loads` on the ASCII frames of this protocol.  A failure of
`json_loads` models the `json.JSONDecodeError` that `json.loads` raises. -/

inductive Json where
  | null
  | bool (v : Bool)
  | num (q : ℚ)
  | str (sv : String)
  | arr (items : List Json)
  | obj (fields : List (String × Json))

/-- JSON insignificant whitespace. -/
def jsonWs (c : Char) : Bool :=
  c = ' ' || c = '\t' || c = '\n' || c = '\r'

/-- Skip insignificant whitespace. -/
def skipWs : List Char → List Char
  | [] => []
  | c :: cs => if jsonWs c then skipWs cs else c :: cs

/-- Numeric value of a decimal digit character. -/
def digitVal (c : Char) : ℕ := c.toNat - '0'.toNat

/-- Value of a list of decimal digit characters. -/
def natOfDigits (ds : List Char) : ℕ :=
  ds.foldl (fun a c => a * 10 + digitVal c) 0

/-- Hex-digit test for `\uXXXX` escapes. -/
def isHexCh (c : Char) : Bool :=
  c.isDigit || ('a'.toNat ≤ c.toNat && c.toNat ≤ 'f'.toNat)
    || ('A'.toNat ≤ c.toNat && c.toNat ≤ 'F'.toNat)

/-- Numeric value of a hex digit character. -/
def hexVal (c : Char) : ℕ :=
  if c.isDigit then c.toNat - '0'.toNat
  else if 'a'.toNat ≤ c.toNat && c.toNat ≤ 'f'.toNat then c.toNat - 'a'.toNat + 10
  else c.toNat - 'A'.toNat + 10

/-- Single-character JSON string escapes, as an escape-code table. -/
def escapeChar (e : Char) : Option Char :=
  List.lookup e
    [('"', '"'), ('\\', '\\'), ('/', '/'), ('b', '\x08'),
     ('f', '\x0c'), ('n', '\n'), ('r', '\r'), ('t', '\t')]

/-- Assemble a rational from the parts of a JSON number literal:
sign, integer digits, fraction digits, exponent sign and exponent digits.
The value is `sign * (ip.fp) * 10^(±ed)`, built as one `mkRat`. -/
def ratOfParts (neg : Bool) (ip fp : List Char) (eneg : Bool) (ed : List Char) : ℚ :=
  let mag : ℕ := (natOfDigits ip * 10 ^ fp.length + natOfDigits fp)
    * (if eneg then 1 else 10 ^ natOfDigits ed)
  let den : ℕ := 10 ^ fp.length * (if eneg then 10 ^ natOfDigits ed else 1)
  mkRat (if neg then -(mag : ℤ) else (mag : ℤ)) den

/-- Parse a JSON number literal at the head of the input. -/
def parseNumber (cs : List Char) : Except String (ℚ × List Char) :=
  let signRes : Bool × List Char :=
    match cs with
    | '-' :: t => (true, t)
    | _ => (false, cs)
  let neg := signRes.1
  let cs1 := signRes.2
  let ip := cs1.takeWhile (·.isDigit)
  let cs2 := cs1.dropWhile (·.isDigit)
  if ip.isEmpty then .error "Expecting value"
  else
    let fracRes : Option (List Char × List Char) :=
      match cs2 with
      | '.' :: t =>
        let f := t.takeWhile (·.isDigit)
        if f.isEmpty then none else some (f, t.dropWhile (·.isDigit))
      | _ => some ([], cs2)
    match fracRes with
    | none => .error "Expecting digits after decimal point"
    | some (fp, cs3) =>
      match cs3 with
      | 'e' :: t => parseNumberExp neg ip fp t
      | 'E' :: t => parseNumberExp neg ip fp t
      | _ => .ok (ratOfParts neg ip fp false [], cs3)
where
  /-- Parse the exponent part after `e`/`E`. -/
  parseNumberExp (neg : Bool) (ip fp : List Char) (t : List Char) :
      Except String (ℚ × List Char) :=
    let esRes : Bool × List Char :=
      match t with
      | '-' :: u => (true, u)
      | '+' :: u => (false, u)
      | _ => (false, t)
    let ed := esRes.2.takeWhile (·.isDigit)
    if ed.isEmpty then .error "Expecting digits in exponent"
    else .ok (ratOfParts neg ip fp esRes.1 ed, esRes.2.dropWhile (·.isDigit))

mutual

/-- Parse one JSON value (whitespace-prefixed) at the head of the input.
The fuel argument bounds the recursion depth; `json_loads` supplies enough
fuel for any input of the given length. -/
def parseValue : ℕ → List Char → Except String (Json × List Char)
  | 0, _ => .error "Nesting too deep"
  | fuel + 1, cs =>
    match skipWs cs with
    | [] => .error "Expecting value"
    | '\x7b' :: t => parseMembers fuel (skipWs t) []
    | '[' :: t => parseElements fuel (skipWs t) []
    | '"' :: t =>
      match parseStringBody fuel t with
      | .error e => .error e
      | .ok (s, r) => .ok (.str (String.mk s), r)
    | 't' :: t =>
      if t.take 3 = ['r', 'u', 'e'] then .ok (.bool true, t.drop 3)
      else .error "Expecting value"
    | 'f' :: t =>
      if t.take 4 = ['a', 'l', 's', 'e'] then .ok (.bool false, t.drop 4)
      else .error "Expecting value"
    | 'n' :: t =>
      if t.take 3 = ['u', 'l', 'l'] then .ok (.null, t.drop 3)
      else .error "Expecting value"
    | cs2 =>
      match parseNumber cs2 with
      | .error e => .error e
      | .ok (q, r) => .ok (.num q, r)

/-- Parse the members of a JSON object, after the opening brace
(whitespace already skipped), accumulating parsed fields. -/
def parseMembers : ℕ → List Char → List (String × Json) →
    Except String (Json × List Char)
  | 0, _, _ => .error "Nesting too deep"
  | fuel + 1, cs, acc =>
    match cs with
    | '\x7d' :: t =>
      if acc.isEmpty then .ok (.obj [], t)
      else .error "Expecting property name enclosed in double quotes"
    | '"' :: t =>
      match parseStringBody fuel t with
      | .error e => .error e
      | .ok (key, r1) =>
        match skipWs r1 with
        | ':' :: r2 =>
          match parseValue fuel r2 with
          | .error e => .error e
          | .ok (v, r3) =>
            match skipWs r3 with
            | ',' :: r4 => parseMembers fuel (skipWs r4) (acc ++ [(String.mk key, v)])
            | '\x7d' :: r4 => .ok (.obj (acc ++ [(String.mk key, v)]), r4)
            | _ => .error "Expecting comma delimiter"
        | _ => .error "Expecting colon delimiter"
    | _ => .error "Expecting property name enclosed in double quotes"

/-- Parse the elements of a JSON array, after the opening bracket
(whitespace already skipped), accumulating parsed elements. -/
def parseElements : ℕ → List Char → List Json → Except String (Json × List Char)
  | 0, _, _ => .error "Nesting too deep"
  | fuel + 1, cs, acc =>
    match cs with
    | ']' :: t =>
      if acc.isEmpty then .ok (.arr [], t) else .error "Expecting value"
    | _ =>
      match parseValue fuel cs with
      | .error e => .error e
      | .ok (v, r1) =>
        match skipWs r1 with
        | ',' :: r2 => parseElements fuel (skipWs r2) (acc ++ [v])
        | ']' :: r2 => .ok (.arr (acc ++ [v]), r2)
        | _ => .error "Expecting comma delimiter"

/-- Parse the body of a JSON string, after the opening quote, returning the
decoded characters and the input after the closing quote. -/
def parseStringBody : ℕ → List Char → Except String (List Char × List Char)
  | 0, _ => .error "Nesting too deep"
  | fuel + 1, cs =>
    match cs with
    | [] => .error "Unterminated string"
    | '"' :: t => .ok ([], t)
    | '\\' :: 'u' :: h1 :: h2 :: h3 :: h4 :: t =>
      if isHexCh h1 && isHexCh h2 && isHexCh h3 && isHexCh h4 then
        match parseStringBody fuel t with
        | .error e => .error e
        | .ok (s, r) =>
          .ok (Char.ofNat (((hexVal h1 * 16 + hexVal h2) * 16 + hexVal h3) * 16
            + hexVal h4) :: s, r)
      else .error "Invalid unicode escape"
    | '\\' :: e :: t =>
      match escapeChar e with
      | some c =>
        match parseStringBody fuel t with
        | .error err => .error err
        | .ok (s, r) => .ok (c :: s, r)
      | none => .error "Invalid escape"
    | '\\' :: [] => .error "Unterminated string"
    | c :: t =>
      match parseStringBody fuel t with
      | .error e => .error e
      | .ok (s, r) => .ok (c :: s, r)

end

/-- Model of Python `json.loads`: parse one value and require the rest of the
input to be whitespace; an `.error` result models a raised
`json.JSONDecodeError`. -/
def json_loads (s : String) : Except String Json :=
  match parseValue (2 * s.data.length + 8) s.data with
  | .error e => .error e
  | .ok (v, rest) =>
    if (skipWs rest).isEmpty then .ok v else .error "Extra data"

/-- Lookup in a parsed JSON object with Python `dict` semantics: the last
binding of a repeated key wins (as `json.loads` builds its dict in order). -/
def dictGet (fields : List (String × Json)) (k : String) : Option Json :=
  fields.foldl (fun acc p => if p.1 = k then some p.2 else acc) none

/-- Model of the Python membership test `k in msg` on a parsed object. -/
def dictHas (fields : List (String × Json)) (k : String) : Bool :=
  (dictGet fields k).isSome

/-! ## `utils.g_to_N` -/

/-- Embedding of `GCS/utils.py` `g_to_N`: convert thrust from grams(-force)
to newtons via `g * 9.81 / 1000`.  Python floats are modelled as rationals,
so the arithmetic is exact. -/
def g_to_N (g : ℚ) : ℚ :=
  g * (981 / 100) / 1000

/-! ## The consumer's decode/dispatch path: `ControlPanel.displaySerialData`

`displaySerialData` is the inbound decode path of `GCS/main.py`: it receives
one stripped line from the monitor thread, parses `TLM:` payloads with
`json.loads`, updates the graphs, and appends to the terminal.  Exceptions
raised inside it (the `json.loads` call and the `msg[...]` subscriptions are
unguarded in the source) are modelled as `Except.error`. -/

/-- Python exceptions that the embedded code can raise. -/
inductive PyErr where
  | jsonDecodeError (msg : String)
  | keyError (k : String)
  | typeError
  | attributeError
deriving DecidableEq

/-- The observable effect of one `displaySerialData` call: the pressure-graph
update (the two values passed to `pressure_graph.update`), the thrust-graph
update (the value passed to `thrust_graph.update`, if any), and the line
appended to the serial terminal. -/
structure DisplayEffect where
  pressure : Option (Json × Json)
  thrust : Option ℚ
  terminalLine : String

/-- Embedding of `ControlPanel.displaySerialData` from `GCS/main.py`:

```
if data.startswith("TLM:"):
    msg = json.loads(data[4:])
    self.pressure_graph.update(msg["psi_fuel"], msg["psi_ox"])
    if "load" in msg:
        self.thrust_graph.update(g_to_N(msg["load"]))
    self.serial_terminal.append("LoRa Home: " + data)
else:
    self.serial_terminal.append("Debug: " + data)
```

Note there is no `HBT:` branch: any line that does not start with `TLM:`
falls into the `Debug:` branch.  A `msg["k"]` subscription raises `KeyError`
when the key is absent and `TypeError` when `msg` is not a dict; arithmetic
on a non-number raises `TypeError`; all of these propagate out. -/
def displaySerialData (data : String) : Except PyErr DisplayEffect :=
  if pyStartsWith data "TLM:" then
    match json_loads (pyDrop4 data) with
    | .error e => .error (.jsonDecodeError e)
    | .ok (.obj fields) =>
      match dictGet fields "psi_fuel" with
      | none => .error (.keyError "psi_fuel")
      | some pf =>
        match dictGet fields "psi_ox" with
        | none => .error (.keyError "psi_ox")
        | some po =>
          if dictHas fields "load" then
            match dictGet fields "load" with
            | some (.num l) =>
              .ok { pressure := some (pf, po), thrust := some (g_to_N l),
                    terminalLine := "LoRa Home: " ++ data }
            | _ => .error .typeError
          else
            .ok { pressure := some (pf, po), thrust := none,
                  terminalLine := "LoRa Home: " ++ data }
    | .ok _ => .error .typeError
  else
    .ok { pressure := none, thrust := none, terminalLine := "Debug: " ++ data }

/-- The effect of the `Debug:` branch of `displaySerialData`. -/
def debugEffect (data : String) : DisplayEffect :=
  { pressure := none, thrust := none, terminalLine := "Debug: " ++ data }

/-! ## The outbound command table and its encoding

`GCS/main.py` holds a literal dict `COMMANDS` from verb keys to wire frames;
the GUI wiring builds a key from the valve's verb and the state's value and
transmits `COMMANDS[key]`. -/

/-- Embedding of the `COMMANDS` dict of `GCS/main.py` (insertion order). -/
def COMMANDS : List (String × String) :=
  [("IGN", "CMD:IGN\n"),
   ("FUEL_PRESSURIZATION:OPEN", "CMD:V1:OPEN\n"),
   ("FUEL_PRESSURIZATION:CLOSE", "CMD:V1:CLOSE\n"),
   ("FUEL_PRESSURIZATION:NEUTRAL", "CMD:V1:NEUTRAL\n"),
   ("FUEL_DEPRESSURIZATION:OPEN", "CMD:V2:OPEN\n"),
   ("FUEL_DEPRESSURIZATION:CLOSE", "CMD:V2:CLOSE\n"),
   ("FUEL_DEPRESSURIZATION:NEUTRAL", "CMD:V2:NEUTRAL\n"),
   ("FUEL_RELEASE:OPEN", "CMD:V3:OPEN\n"),
   ("FUEL_RELEASE:CLOSE", "CMD:V3:CLOSE\n"),
   ("FUEL_RELEASE:NEUTRAL", "CMD:V3:NEUTRAL\n"),
   ("OX_RELEASE:OPEN", "CMD:V4:OPEN\n"),
   ("OX_RELEASE:CLOSE", "CMD:V4:CLOSE\n"),
   ("OX_RELEASE:NEUTRAL", "CMD:V4:NEUTRAL\n"),
   ("CLOSE_ALL", "CMD:CLOSE_ALL\n"),
   ("OPEN_ALL", "CMD:OPEN_ALL\n")]

/-- The four valves of the reference system, named by their `COMMANDS` verbs. -/
inductive ValveId where
  | FUEL_PRESSURIZATION
  | FUEL_DEPRESSURIZATION
  | FUEL_RELEASE
  | OX_RELEASE
deriving DecidableEq

/-- The command verb of each valve, as used to build `COMMANDS` keys. -/
def ValveId.verb : ValveId → String
  | .FUEL_PRESSURIZATION => "FUEL_PRESSURIZATION"
  | .FUEL_DEPRESSURIZATION => "FUEL_DEPRESSURIZATION"
  | .FUEL_RELEASE => "FUEL_RELEASE"
  | .OX_RELEASE => "OX_RELEASE"

/-- The display name each valve's `ValveSwitch` is created with in
`GCS/main.py`. -/
def ValveId.displayName : ValveId → String
  | .FUEL_PRESSURIZATION => "Fuel Pressurization Valve"
  | .FUEL_DEPRESSURIZATION => "Fuel De-pressurization Valve"
  | .FUEL_RELEASE => "Fuel Release Valve"
  | .OX_RELEASE => "OX Release Valve"

/-- Embedding of the `ValveState` enum of `GCS/ui.py`; `value` below gives
each member's string value. -/
inductive ValveState where
  | CLOSED
  | OPEN
  | NEUTRAL
deriving DecidableEq

/-- The `value` attribute of each `ValveState` member (`CLOSED = "CLOSE"`). -/
def ValveState.value : ValveState → String
  | .CLOSED => "CLOSE"
  | .OPEN => "OPEN"
  | .NEUTRAL => "NEUTRAL"

/-- The commands the console can issue through `COMMANDS` (§3 of the spec,
restricted to the closed product the table covers; `Raw` text goes through
`sendUserCommand` instead and never touches the table). -/
inductive Command where
  | Ignite
  | SetValve (v : ValveId) (s : ValveState)
  | CloseAll
  | OpenAll
deriving DecidableEq

/-- The `COMMANDS` key the `GCS/main.py` wiring builds for each command. -/
def commandKey : Command → String
  | .Ignite => "IGN"
  | .SetValve v s => v.verb ++ ":" ++ s.value
  | .CloseAll => "CLOSE_ALL"
  | .OpenAll => "OPEN_ALL"

/-- Encoding as the source performs it: a `COMMANDS` dict lookup.  A `none`
result would model a `KeyError` (a missing table entry). -/
def encode (c : Command) : Option String :=
  List.lookup (commandKey c) COMMANDS

/-- Modelled from the spec: the literal frame table of §6, written
independently of the source's dict, for comparison with `encode`. -/
def specFrame : Command → String
  | .Ignite => "CMD:IGN\n"
  | .SetValve v s =>
    let vcode : String :=
      match v with
      | .FUEL_PRESSURIZATION => "V1"
      | .FUEL_DEPRESSURIZATION => "V2"
      | .FUEL_RELEASE => "V3"
      | .OX_RELEASE => "V4"
    let scode : String :=
      match s with
      | .OPEN => "OPEN"
      | .CLOSED => "CLOSE"
      | .NEUTRAL => "NEUTRAL"
    "CMD:" ++ vcode ++ ":" ++ scode ++ "\n"
  | .CloseAll => "CMD:CLOSE_ALL\n"
  | .OpenAll => "CMD:OPEN_ALL\n"

/-! ## The Valve State Tracker: `ValveSwitch` (`GCS/ui.py`) and its wiring

A `ValveSwitch` holds a `name` and the tracked `state_`, initialised to
`ValveState.CLOSED`.  Pressing one of its buttons calls `proxy_callback_`,
which unconditionally overwrites `state_`, rewrites the label text, and then
invokes the callback installed by `GCS/main.py`, which appends a terminal
line and transmits the `COMMANDS` frame for that valve and state. -/

/-- Embedding of the `ValveSwitch` widget state (`GCS/ui.py`). -/
structure ValveSwitch where
  name : String
  state_ : ValveState
deriving DecidableEq

/-- A fresh `ValveSwitch`, as built by `ValveSwitch.__init__`. -/
def initValveSwitch (name : String) : ValveSwitch :=
  { name := name, state_ := ValveState.CLOSED }

/-- The observable actions of one valve button press, in program order. -/
inductive ValveEvent where
  | setTrackedState (st : ValveState)
  | setLabelText (txt : String)
  | terminalAppend (txt : String)
  | transmit (frame : String)
  | raiseKeyError (key : String)
deriving DecidableEq

/-- Embedding of the callback `GCS/main.py` installs on each `ValveSwitch`:
append `"<display name> : <state value>"` to the terminal, then transmit
`COMMANDS[<verb> + ":" + <state value>]` (a missing key would raise). -/
def valveCallback (v : ValveId) (st : ValveState) : List ValveEvent :=
  match List.lookup (v.verb ++ ":" ++ st.value) COMMANDS with
  | some frame => [.terminalAppend (v.displayName ++ " : " ++ st.value), .transmit frame]
  | none => [.terminalAppend (v.displayName ++ " : " ++ st.value),
             .raiseKeyError (v.verb ++ ":" ++ st.value)]

/-- Embedding of `ValveSwitch.proxy_callback_`: set `state_` to the new
state, set the label text to `"<name> [<STATE>]"`, then run the installed
callback.  Returns the updated switch and the actions in program order. -/
def proxyCallback (v : ValveId) (w : ValveSwitch) (st : ValveState) :
    ValveSwitch × List ValveEvent :=
  let w2 : ValveSwitch := { w with state_ := st }
  (w2, .setTrackedState st :: .setLabelText (w.name ++ " [" ++ st.value ++ "]")
        :: valveCallback v st)

/-- Run a sequence of button presses on one switch, collecting all actions. -/
def runValveSeq (v : ValveId) (w : ValveSwitch) :
    List ValveState → ValveSwitch × List ValveEvent
  | [] => (w, [])
  | st :: rest =>
    let r1 := proxyCallback v w st
    let r2 := runValveSeq v r1.1 rest
    (r2.1, r1.2 ++ r2.2)

/-- The frames transmitted within a list of actions, in order. -/
def transmitsOf (evs : List ValveEvent) : List String :=
  evs.filterMap fun e =>
    match e with
    | .transmit f => some f
    | _ => none

/-- Whether an action is a transmission. -/
def isTransmitEv (e : ValveEvent) : Bool :=
  match e with
  | .transmit _ => true
  | _ => false

/-- The console's switches, one independent `ValveSwitch` object per valve. -/
def Switches : Type := ValveId → ValveSwitch

/-- Press a button on valve `v`'s switch: only that switch object is
touched; the returned actions are those of `proxy_callback_`. -/
def applySet (f : Switches) (v : ValveId) (st : ValveState) :
    Switches × List ValveEvent :=
  (fun u => if u = v then (proxyCallback v (f v) st).1 else f u,
   (proxyCallback v (f v) st).2)

/-! ## The Monitor Loop: `SerialMonitor` (`GCS/serial_monitor.py`)

```
def run(self):
    while self._running:
        if self.serial_connection.in_waiting:
            try:
                line = self.serial_connection.readline().decode(errors="ignore").strip()
                self.data_received.emit(line)
            except Exception as e:
                self.data_received.emit(f"ERROR: Read error {e}")
```

One loop iteration is driven by what the transport offers: no input, a
line, or a raised read error.  The `_running` flag is only ever cleared by
`stop()`, never inside the loop body. -/

/-- What the transport presents to one iteration of `SerialMonitor.run`. -/
inductive PollEvent where
  | noInput
  | lineData (s : String)
  | readErr (e : String)
deriving DecidableEq

/-- The string one iteration emits on `data_received`, if any: a stripped
line, or the wrapped read error `"ERROR: Read error " + e`. -/
def readEmission : PollEvent → Option String
  | .noInput => none
  | .lineData s => some (pyStrip s)
  | .readErr e => some ("ERROR: Read error " ++ e)

/-- The `SerialMonitor` worker state: its `_running` flag. -/
structure SerialMonitor where
  running : Bool
deriving DecidableEq

/-- Embedding of `SerialMonitor.stop`. -/
def SerialMonitor.stop (m : SerialMonitor) : SerialMonitor :=
  { m with running := false }

/-- Embedding of `SerialMonitor.run` over a finite schedule of transport
events: each iteration first checks `_running` (leaving the remaining
events unconsumed if it is clear), then handles one event, emitting as
`readEmission` describes, and continues.  Returns the final worker state
and the emissions in order. -/
def monitorRun (m : SerialMonitor) : List PollEvent → SerialMonitor × List String
  | [] => (m, [])
  | ev :: evs =>
    if m.running then
      let rest := monitorRun m evs
      (rest.1, (readEmission ev).toList ++ rest.2)
    else (m, [])

/-! ## The Link Manager: `ControlPanel` lifecycle (`GCS/main.py`)

The `ControlPanel` owns the serial handle (`self.serial_connection`), the
monitor worker (`self.serial_monitor`) and its thread
(`self.serial_monitor_thread`).  `connectToHome` is `connect()`,
`transmitMessage` is `write()`, and `closeEvent` is `disconnect()`.

To check the resource claims, the state also carries ghost lists of the
handles and threads that a reconnect has replaced: the source drops its
references to them, and a leak would show up as an open handle or a live
thread in those lists. -/

/-- A pyserial handle: whether it is open, and the bytes written through
it (each `write` call as one string). -/
structure SerialConn where
  is_open : Bool
  written : List String
deriving DecidableEq

/-- The monitor's QThread, as far as the lifecycle observes it: whether its
loop is still live (started and not yet stopped-and-joined). -/
structure MonitorThread where
  live : Bool
deriving DecidableEq

/-- The lifecycle-relevant state of a `ControlPanel`.  `serial_monitor` is
`none` when the attribute has never been assigned (attribute access then
raises `AttributeError`); `serial_monitor_thread` is `none` when it holds
Python `None` (method calls on it also raise `AttributeError`). -/
structure ControlPanelState where
  serial_connection : SerialConn
  serial_monitor : Option SerialMonitor
  serial_monitor_thread : Option MonitorThread
  serial_port_path : String
  serial_baudrate : String
  oldConns : List SerialConn
  oldThreads : List MonitorThread
  terminal : List String
deriving DecidableEq

/-- The state `ControlPanel.__init__` establishes: a closed default
`serial.Serial()` handle, `serial_monitor_thread = None`, and no
`serial_monitor` attribute at all. -/
def initialPanel : ControlPanelState :=
  { serial_connection := { is_open := false, written := [] }
    serial_monitor := none
    serial_monitor_thread := none
    serial_port_path := "/dev/pts/6"
    serial_baudrate := "115200"
    oldConns := []
    oldThreads := []
    terminal := [] }

/-- The primitive lifecycle actions `connectToHome` performs, in order:
stopping the monitor, quitting and joining its thread, closing the handle,
evaluating `serial.Serial(path, int(baud))`, and starting the new thread. -/
inductive LinkAction where
  | stopMonitor
  | quitThread
  | waitThread
  | closeHandle
  | openAttempt
  | startThread
deriving DecidableEq

/-- The environment's verdict on the `serial.Serial(path, int(baud))`
expression: it opens, `serial.Serial` raises `SerialException`, or `int()`
raises `ValueError` (baud text not an integer). -/
inductive OpenResult where
  | opened
  | serialException
  | valueError
deriving DecidableEq

/-- The open half of `connectToHome`, after the teardown block: close the
current handle, then attempt the open; on failure append the error line and
return; on success install the new handle, worker and thread (retiring the
replaced ones into the ghost lists) and append the success line. -/
def connectOpenPhase (env : OpenResult) (s : ControlPanelState)
    (tr : List LinkAction) : ControlPanelState × List LinkAction :=
  let s2 : ControlPanelState :=
    { s with serial_connection := { s.serial_connection with is_open := false } }
  let tr2 := tr ++ [LinkAction.closeHandle, LinkAction.openAttempt]
  match env with
  | .serialException =>
    ({ s2 with terminal := s2.terminal ++
        ["SERIAL EXCEPTION: Connection to serial port " ++ s2.serial_port_path
          ++ " failed."] }, tr2)
  | .valueError =>
    ({ s2 with terminal := s2.terminal ++
        ["VALUE EXCEPTION: Invalid baudrate " ++ s2.serial_baudrate ++ "."] }, tr2)
  | .opened =>
    ({ s2 with
        serial_connection := { is_open := true, written := [] }
        oldConns := s2.serial_connection :: s2.oldConns
        serial_monitor := some { running := true }
        serial_monitor_thread := some { live := true }
        oldThreads := s2.serial_monitor_thread.toList ++ s2.oldThreads
        terminal := s2.terminal ++
          ["Serial connection to " ++ s2.serial_port_path ++ " successful."] },
     tr2 ++ [LinkAction.startThread])

/-- Embedding of `ControlPanel.connectToHome`:

```
if self.serial_monitor_thread:
    self.serial_monitor.stop()
    self.serial_monitor_thread.quit()
    self.serial_monitor_thread.wait()
self.serial_connection.close()
try:
    self.serial_connection = serial.Serial(self.serial_port_path, int(self.serial_baudrate))
except serial.SerialException: ... return
except ValueError: ... return
... start monitor thread ...
```

Returns the new state and the actions performed in order; `.error` models
an uncaught exception (an `AttributeError` when `serial_monitor_thread` is
set but `serial_monitor` was never assigned — unreachable from states the
program produces). -/
def connectToHome (env : OpenResult) (s : ControlPanelState) :
    Except PyErr (ControlPanelState × List LinkAction) :=
  match s.serial_monitor_thread with
  | some t =>
    match s.serial_monitor with
    | none => .error .attributeError
    | some m =>
      .ok (connectOpenPhase env
        { s with serial_monitor := some (m.stop)
                 serial_monitor_thread := some { t with live := false } }
        [LinkAction.stopMonitor, LinkAction.quitThread, LinkAction.waitThread])
  | none => .ok (connectOpenPhase env s [])

/-- Result of a `transmitMessage` call. -/
inductive TransmitResult where
  | sent
  | notConnected
deriving DecidableEq

/-- Embedding of `ControlPanel.transmitMessage`: if the handle is open,
write the message synchronously and log it; otherwise append
`"Not connected."` and write nothing. -/
def transmitMessage (s : ControlPanelState) (message : String) :
    ControlPanelState × TransmitResult :=
  if s.serial_connection.is_open then
    ({ s with
        serial_connection :=
          { s.serial_connection with
              written := s.serial_connection.written ++ [message] }
        terminal := s.terminal ++ ["Wrote " ++ message ++ " to serial."] },
     .sent)
  else
    ({ s with terminal := s.terminal ++ ["Not connected."] }, .notConnected)

/-- Embedding of `ControlPanel.closeEvent` (the disconnect path):

```
self.serial_monitor.stop()
self.serial_monitor_thread.quit()
self.serial_monitor_thread.wait()
try:
    if self.serial_connection.is_open:
        self.serial_connection.close()
except AttributeError:
    pass
event.accept()
```

Only the handle-closing block is guarded by `try/except AttributeError`;
the three teardown calls before it are not, so they raise when
`serial_monitor` was never assigned or `serial_monitor_thread` is `None`.
On success returns the new state and `true` for the accepted event. -/
def closeEvent (s : ControlPanelState) : Except PyErr (ControlPanelState × Bool) :=
  match s.serial_monitor with
  | none => .error .attributeError
  | some m =>
    match s.serial_monitor_thread with
    | none => .error .attributeError
    | some t =>
      .ok ({ s with
              serial_monitor := some (m.stop)
              serial_monitor_thread := some { t with live := false }
              serial_connection := { s.serial_connection with is_open := false } },
           true)

/-- Number of open serial handles the panel has ever created and not
closed: the current handle plus the retired ones. -/
def openHandleCount (s : ControlPanelState) : ℕ :=
  (if s.serial_connection.is_open then 1 else 0)
    + (s.oldConns.filter (·.is_open)).length

/-- Number of live monitor-loop threads: the current thread plus the
retired ones. -/
def liveLoopCount (s : ControlPanelState) : ℕ :=
  (match s.serial_monitor_thread with
   | some t => if t.live then 1 else 0
   | none => 0)
    + (s.oldThreads.filter (·.live)).length

/-- States the program can actually be in: whenever a thread object is
installed the worker attribute is also set (they are always assigned
together), and everything retired by a reconnect was torn down first. -/
def goodStateB (s : ControlPanelState) : Bool :=
  (!s.serial_monitor_thread.isSome || s.serial_monitor.isSome)
    && s.oldThreads.all (fun t => !t.live)
    && s.oldConns.all (fun c => !c.is_open)

/-- The successful result of a `connectToHome` call (used to name concrete
post-connect states; on the error branch, which concrete uses never hit,
it returns the input unchanged). -/
def connectOk (env : OpenResult) (s : ControlPanelState) :
    ControlPanelState × List LinkAction :=
  match connectToHome env s with
  | .ok r => r
  | .error _ => (s, [])

/-- A concrete connected panel: the initial panel after one successful
`connectToHome`. -/
def connectedPanel : ControlPanelState :=
  (connectOk .opened initialPanel).1

/-- The §8 example telemetry payload with a load field. -/
def loadExamplePayload : String :=
  "\x7b\"psi_fuel\":10,\"psi_ox\":20,\"load\":1000\x7d"

/-- The fields `json.loads` yields on `loadExamplePayload`. -/
def loadExampleFields : List (String × Json) :=
  [("psi_fuel", Json.num 10), ("psi_ox", Json.num 20), ("load", Json.num 1000)]

/-! ## Helper lemmas -/

/-- A line whose first character is not `T` does not start with `"TLM:"`. -/
lemma not_tlm_of_head (c : Char) (cs : List Char) (h : c ≠ 'T') :
    ("TLM:".data.isPrefixOf (c :: cs)) = false := by
  show (('T' :: 'L' :: 'M' :: ':' :: []).isPrefixOf (c :: cs)) = false
  simp [List.isPrefixOf, beq_iff_eq]
  intro h2
  exact absurd h2.symm h

/-- Any line that does not start with `"TLM:"` takes the `Debug:` branch. -/
lemma displaySerialData_debug (data : String)
    (h : pyStartsWith data "TLM:" = false) :
    displaySerialData data = .ok (debugEffect data) := by
  simp [displaySerialData, h, debugEffect]

/-- A running monitor loop processes every scheduled transport event,
emits exactly the per-event emissions in order, and is still running. -/
lemma monitorRun_running (evs : List PollEvent) :
    monitorRun { running := true } evs =
      ({ running := true }, evs.filterMap readEmission) := by
  induction evs with
  | nil => rfl
  | cons ev evs ih =>
    cases h : readEmission ev <;>
      simp [monitorRun, ih, List.filterMap_cons, h]

/-- One successful `connectToHome` call from a reachable state: the result
is reachable again, holds at most one open handle and one live loop, and
its action sequence is the full teardown (when a thread existed), then the
close, then the open attempt, then (on success) the thread start. -/
lemma connect_result_spec (env : OpenResult) (s s2 : ControlPanelState)
    (tr : List LinkAction) (h : goodStateB s = true)
    (hc : connectToHome env s = .ok (s2, tr)) :
    goodStateB s2 = true ∧ openHandleCount s2 ≤ 1 ∧ liveLoopCount s2 ≤ 1 ∧
    tr = (if s.serial_monitor_thread.isSome
            then [LinkAction.stopMonitor, LinkAction.quitThread, LinkAction.waitThread]
            else [])
         ++ [LinkAction.closeHandle, LinkAction.openAttempt]
         ++ (if env = .opened then [LinkAction.startThread] else []) := by
  simp [goodStateB, Bool.or_eq_true, List.all_eq_true] at h
  obtain ⟨⟨hmon, hthreads⟩, hconns⟩ := h
  have hfconn : s.oldConns.filter (·.is_open) = [] := by
    rw [List.filter_eq_nil_iff]
    intro c hcmem
    simpa using hconns c hcmem
  have hfthr : s.oldThreads.filter (·.live) = [] := by
    rw [List.filter_eq_nil_iff]
    intro t htmem
    simpa using hthreads t htmem
  rcases hthread : s.serial_monitor_thread with _ | t
  · rw [connectToHome, hthread] at hc
    rcases env with _ | _ | _ <;>
    · simp [connectOpenPhase] at hc
      obtain ⟨hs2, htr⟩ := hc
      subst hs2
      subst htr
      simp [goodStateB, openHandleCount, liveLoopCount, List.all_eq_true, hfconn,
        hfthr, hthread, List.filter_cons]
      exact ⟨hthreads, hconns⟩
  · rcases hmonitor : s.serial_monitor with _ | m
    · rcases hmon with h1 | h1
      · rw [hthread] at h1; simp at h1
      · rw [hmonitor] at h1; simp at h1
    · rw [connectToHome, hthread, hmonitor] at hc
      rcases env with _ | _ | _ <;>
      · simp [connectOpenPhase, SerialMonitor.stop] at hc
        obtain ⟨hs2, htr⟩ := hc
        subst hs2
        subst htr
        simp [goodStateB, openHandleCount, liveLoopCount, List.all_eq_true, hfconn,
          hfthr, hthread, List.filter_cons]
        exact ⟨hthreads, hconns⟩

/-! ## Claims -/

/-- C1.  The claim says `decode("TLM:not-json")` returns
`Malformed("TLM:not-json", reason)` and never propagates a fault.  The
source's decode path (`displaySerialData`) instead calls `json.loads`
unguarded, so on this line it raises `json.JSONDecodeError` and the fault
propagates: the code lacks the `Malformed` handling the spec requires. -/
theorem decode_tlm_parse_failure_raises :
    displaySerialData "TLM:not-json"
      = .error (.jsonDecodeError "Expecting value") := rfl

/-- C2.  The claim says `disconnect()` on a never-connected instance is a
no-op that returns success.  On the `__init__` state the `serial_monitor`
attribute was never assigned, and `closeEvent`'s first statement
`self.serial_monitor.stop()` is outside the `try/except AttributeError`
guard, so the call raises `AttributeError` instead of succeeding. -/
theorem closeEvent_never_connected_raises :
    closeEvent initialPanel = .error .attributeError := rfl

/-- C3.  Every `connect()` call with an existing connection and monitor
loop performs the full teardown (stop, join, close) before the open
attempt, and after any two successive `connect()` calls from a reachable
state at most one monitor loop is live and at most one handle is open. -/
theorem connect_twice_teardown_no_leak (s : ControlPanelState)
    (e1 e2 : OpenResult) (s1 s2 : ControlPanelState)
    (tr1 tr2 : List LinkAction) (h : goodStateB s = true)
    (h1 : connectToHome e1 s = .ok (s1, tr1))
    (h2 : connectToHome e2 s1 = .ok (s2, tr2)) :
    tr1 = (if s.serial_monitor_thread.isSome
             then [LinkAction.stopMonitor, LinkAction.quitThread, LinkAction.waitThread]
             else [])
          ++ [LinkAction.closeHandle, LinkAction.openAttempt]
          ++ (if e1 = .opened then [LinkAction.startThread] else []) ∧
    openHandleCount s2 ≤ 1 ∧ liveLoopCount s2 ≤ 1 := by
  obtain ⟨hg1, _, _, htr1⟩ := connect_result_spec e1 s s1 tr1 h h1
  obtain ⟨_, hopen, hlive, _⟩ := connect_result_spec e2 s1 s2 tr2 hg1 h2
  exact ⟨htr1, hopen, hlive⟩

/-- Witness for C3: two successful `connect()` calls from the initial
panel leave at most one open handle and one live loop. -/
theorem connect_twice_teardown_no_leak_witness :
    goodStateB initialPanel = true ∧
    openHandleCount (connectOk .opened (connectOk .opened initialPanel).1).1 ≤ 1 ∧
    liveLoopCount (connectOk .opened (connectOk .opened initialPanel).1).1 ≤ 1 := by
  have h := connect_twice_teardown_no_leak initialPanel .opened .opened
    (connectOk .opened initialPanel).1
    (connectOk .opened (connectOk .opened initialPanel).1).1
    (connectOk .opened initialPanel).2
    (connectOk .opened (connectOk .opened initialPanel).1).2
    rfl rfl rfl
  exact ⟨rfl, h.2.1, h.2.2⟩

/-- C4.  `transmitMessage` checks `serial_connection.is_open`: when the
handle is not open it reports `Not connected.`, writes nothing to the
current transport and touches no retired transport; when open it writes
the message synchronously and reports success. -/
theorem transmit_requires_open_connection (s : ControlPanelState)
    (message : String) :
    (transmitMessage s message).2 =
      (if s.serial_connection.is_open then .sent else .notConnected) ∧
    (transmitMessage s message).1.serial_connection.written =
      s.serial_connection.written ++
        (if s.serial_connection.is_open then [message] else []) ∧
    (transmitMessage s message).1.oldConns = s.oldConns := by
  unfold transmitMessage
  by_cases h : s.serial_connection.is_open <;> simp [h]

/-- C5.  `encode` (the `COMMANDS` dict lookup on the key the wiring
builds) is total over `Ignite`, the four-valve by three-state product,
`CloseAll` and `OpenAll`, and returns exactly the literal frame of the §6
table — no default or fallback branch is ever taken. -/
theorem encode_total_matches_table :
    ∀ c : Command, encode c = some (specFrame c) := by
  intro c
  cases c with
  | Ignite => rfl
  | CloseAll => rfl
  | OpenAll => rfl
  | SetValve v s => cases v <;> cases s <;> rfl

/-- C6.  A valve transition is unconditional: whatever the prior tracked
state, `proxy_callback_` overwrites the tracked state, rewrites the label
to `"<name> [<STATE>]"`, and then emits exactly one `SetValve` command for
that valve and state (as its wire frame), in that order.  Each switch
starts `CLOSED`; the press sequence Open, Neutral, Closed yields exactly
those three frames in order and leaves the tracked state `CLOSED`; and an
action on one valve leaves every other valve's switch untouched. -/
theorem valve_switch_unconditional_transition (v : ValveId) (name : String)
    (s0 st : ValveState) :
    (proxyCallback v { name := name, state_ := s0 } st).1
      = { name := name, state_ := st } ∧
    (proxyCallback v { name := name, state_ := s0 } st).2 =
      [ValveEvent.setTrackedState st,
       ValveEvent.setLabelText (name ++ " [" ++ st.value ++ "]"),
       ValveEvent.terminalAppend (v.displayName ++ " : " ++ st.value),
       ValveEvent.transmit (specFrame (.SetValve v st))] ∧
    ((proxyCallback v { name := name, state_ := s0 } st).2.filter isTransmitEv).length
      = 1 ∧
    (initValveSwitch name).state_ = ValveState.CLOSED ∧
    (runValveSeq v (initValveSwitch name)
      [ValveState.OPEN, ValveState.NEUTRAL, ValveState.CLOSED]).1.state_
      = ValveState.CLOSED ∧
    transmitsOf (runValveSeq v (initValveSwitch name)
      [ValveState.OPEN, ValveState.NEUTRAL, ValveState.CLOSED]).2 =
      [specFrame (.SetValve v .OPEN), specFrame (.SetValve v .NEUTRAL),
       specFrame (.SetValve v .CLOSED)] ∧
    (∀ (f : Switches) (v2 : ValveId), v2 ≠ v → (applySet f v st).1 v2 = f v2) := by
  refine ⟨rfl, ?_, ?_, rfl, rfl, ?_, ?_⟩
  · cases v <;> cases st <;> rfl
  · cases v <;> cases st <;> rfl
  · cases v <;> rfl
  · intro f v2 hne
    simp [applySet, hne]

/-- Witness for C6: pressing Open on the fuel-pressurization switch (from
its initial `CLOSED` state) tracks `OPEN`, and leaves the OX-release
switch untouched. -/
theorem valve_switch_unconditional_transition_witness :
    (proxyCallback .FUEL_PRESSURIZATION
        { name := "Fuel Pressurization Valve", state_ := ValveState.CLOSED }
        ValveState.OPEN).1
      = { name := "Fuel Pressurization Valve", state_ := ValveState.OPEN } ∧
    (ValveId.OX_RELEASE ≠ ValveId.FUEL_PRESSURIZATION) ∧
    (applySet (fun _ => initValveSwitch "w") .FUEL_PRESSURIZATION
        ValveState.OPEN).1 .OX_RELEASE = initValveSwitch "w" := by
  have h := valve_switch_unconditional_transition .FUEL_PRESSURIZATION
    "Fuel Pressurization Valve" ValveState.CLOSED ValveState.OPEN
  exact ⟨h.1, by decide,
    h.2.2.2.2.2.2 (fun _ => initValveSwitch "w") .OX_RELEASE (by decide)⟩

/-- C7 counterexample.  The claim says a `"HBT:"` line decodes to
`Heartbeat(count)`, not a Debug result.  The consumer's decode path has no
`HBT:` branch at all: `"HBT:5"` falls into the `else` branch and is
handled as debug text (`"Debug: HBT:5"` is appended, no heartbeat value is
produced anywhere). -/
theorem hbt_line_hits_debug_branch :
    displaySerialData "HBT:5" = .ok (debugEffect "HBT:5") := rfl

/-- C7 amended.  Every inbound line starting with `"HBT:"` is handled by
the Debug branch of `displaySerialData`: it is appended verbatim after
`"Debug: "`, and no heartbeat count is parsed or consumed. -/
theorem hbt_line_decodes_to_debug (rest : String) :
    displaySerialData ("HBT:" ++ rest) = .ok (debugEffect ("HBT:" ++ rest)) := by
  apply displaySerialData_debug
  cases rest with
  | mk d => exact not_tlm_of_head 'H' _ (by decide)

/-- C8.  While the stop signal is unset, the monitor loop processes every
scheduled transport event and remains running: a read error is wrapped as
`"ERROR: Read error " + detail`, emitted to the consumer (where it lands
in the Debug branch), and the loop proceeds to the next iteration — no
in-loop read fault terminates it. -/
theorem monitor_loop_survives_read_errors (evs : List PollEvent) :
    (monitorRun { running := true } evs).1.running = true ∧
    (monitorRun { running := true } evs).2 = evs.filterMap readEmission ∧
    (∀ e, readEmission (.readErr e) = some ("ERROR: Read error " ++ e)) ∧
    (∀ e, displaySerialData ("ERROR: Read error " ++ e)
        = .ok (debugEffect ("ERROR: Read error " ++ e))) := by
  refine ⟨?_, ?_, fun e => rfl, fun e => ?_⟩
  · rw [monitorRun_running]
  · rw [monitorRun_running]
  · apply displaySerialData_debug
    cases e with
    | mk d => exact not_tlm_of_head 'E' _ (by decide)

/-- C9.  For every `TLM:` line whose payload parses as a JSON object with
the required fields present, the decode path passes the pressures to the
pressure graph; when the optional numeric `load` field is present the
thrust value is exactly `load * 9.81 / 1000` (grams-force to newtons, as
`g_to_N` computes), and when it is absent no thrust value is produced. -/
theorem tlm_load_converted_to_newtons (rest : String)
    (fields : List (String × Json)) (pf po : Json)
    (hparse : json_loads rest = .ok (.obj fields))
    (hpf : dictGet fields "psi_fuel" = some pf)
    (hpo : dictGet fields "psi_ox" = some po) :
    (∀ l : ℚ, dictGet fields "load" = some (.num l) →
      displaySerialData ("TLM:" ++ rest) =
        .ok { pressure := some (pf, po), thrust := some (l * (981 / 100) / 1000),
              terminalLine := "LoRa Home: " ++ ("TLM:" ++ rest) }) ∧
    (dictGet fields "load" = none →
      displaySerialData ("TLM:" ++ rest) =
        .ok { pressure := some (pf, po), thrust := none,
              terminalLine := "LoRa Home: " ++ ("TLM:" ++ rest) }) := by
  have hstart : pyStartsWith ("TLM:" ++ rest) "TLM:" = true := by
    cases rest with
    | mk d =>
      show ("TLM:".data.isPrefixOf ('T' :: 'L' :: 'M' :: ':' :: d)) = true
      simp [List.isPrefixOf]
  have hdrop : pyDrop4 ("TLM:" ++ rest) = rest := by
    cases rest with
    | mk d => rfl
  constructor
  · intro l hl
    simp [displaySerialData, hstart, hdrop, hparse, hpf, hpo, dictHas, hl, g_to_N]
  · intro hl
    simp [displaySerialData, hstart, hdrop, hparse, hpf, hpo, dictHas, hl]

/-- Witness for C9: the §8 example `TLM:` frame with `load = 1000` yields
a thrust of `1000 * 9.81 / 1000 = 9.81` newtons (exact in rationals). -/
theorem tlm_load_converted_to_newtons_witness :
    json_loads loadExamplePayload = .ok (.obj loadExampleFields) ∧
    dictGet loadExampleFields "load" = some (.num 1000) ∧
    displaySerialData ("TLM:" ++ loadExamplePayload) =
      .ok { pressure := some (Json.num 10, Json.num 20),
            thrust := some ((1000 : ℚ) * (981 / 100) / 1000),
            terminalLine := "LoRa Home: " ++ ("TLM:" ++ loadExamplePayload) } ∧
    (1000 : ℚ) * (981 / 100) / 1000 = 981 / 100 := by
  refine ⟨rfl, rfl, ?_, by norm_num⟩
  exact (tlm_load_converted_to_newtons loadExamplePayload loadExampleFields
    (.num 10) (.num 20) rfl rfl rfl).1 1000 rfl

/-- C10.  When `connect()` fails (port cannot be opened, or the baud text
is not an integer), the previous connection and monitor loop were already
torn down before the open attempt, so the panel is left fully
disconnected: no handle open, no loop live, every subsequent write reports
`Not connected.` and writes zero bytes, until a later successful
`connect()` opens a handle again. -/
theorem failed_reconnect_leaves_disconnected (s s2 : ControlPanelState)
    (e : OpenResult) (tr : List LinkAction)
    (hgood : goodStateB s = true) (hfail : e ≠ .opened)
    (hc : connectToHome e s = .ok (s2, tr)) :
    s2.serial_connection.is_open = false ∧ openHandleCount s2 = 0 ∧
    liveLoopCount s2 = 0 ∧
    (∀ msg, (transmitMessage s2 msg).2 = .notConnected ∧
      (transmitMessage s2 msg).1.serial_connection.written
        = s2.serial_connection.written ∧
      (transmitMessage s2 msg).1.oldConns = s2.oldConns) ∧
    (∀ s3 tr3, connectToHome .opened s2 = .ok (s3, tr3) →
      s3.serial_connection.is_open = true) := by
  simp [goodStateB, Bool.or_eq_true, List.all_eq_true] at hgood
  obtain ⟨⟨hmon, hthreads⟩, hconns⟩ := hgood
  have hfconn : s.oldConns.filter (·.is_open) = [] := by
    rw [List.filter_eq_nil_iff]
    intro c hcmem
    simpa using hconns c hcmem
  have hfthr : s.oldThreads.filter (·.live) = [] := by
    rw [List.filter_eq_nil_iff]
    intro t htmem
    simpa using hthreads t htmem
  have hpost : ∀ s3 tr3, connectToHome .opened s2 = .ok (s3, tr3) →
      s3.serial_connection.is_open = true := by
    intro s3 tr3 h3
    rw [connectToHome] at h3
    rcases hq : s2.serial_monitor_thread with _ | t2 <;> rw [hq] at h3
    · simp [connectOpenPhase] at h3
      obtain ⟨hs3, _⟩ := h3
      subst hs3
      rfl
    · rcases hm2 : s2.serial_monitor with _ | m2 <;> rw [hm2] at h3
      · simp at h3
      · simp [connectOpenPhase] at h3
        obtain ⟨hs3, _⟩ := h3
        subst hs3
        rfl
  rcases hthread : s.serial_monitor_thread with _ | t
  · rw [connectToHome, hthread] at hc
    rcases e with _ | _ | _
    · exact absurd rfl hfail
    all_goals
    · simp [connectOpenPhase] at hc
      obtain ⟨hs2, htr⟩ := hc
      subst hs2
      refine ⟨rfl, ?_, ?_, ?_, hpost⟩
      · simp [openHandleCount, hfconn]
      · simp [liveLoopCount, hthread, hfthr]
      · intro msg
        simp [transmitMessage]
  · rcases hmonitor : s.serial_monitor with _ | m
    · rcases hmon with h1 | h1
      · rw [hthread] at h1; simp at h1
      · rw [hmonitor] at h1; simp at h1
    · rw [connectToHome, hthread, hmonitor] at hc
      rcases e with _ | _ | _
      · exact absurd rfl hfail
      all_goals
      · simp [connectOpenPhase, SerialMonitor.stop] at hc
        obtain ⟨hs2, htr⟩ := hc
        subst hs2
        refine ⟨rfl, ?_, ?_, ?_, hpost⟩
        · simp [openHandleCount, hfconn]
        · simp [liveLoopCount, hfthr]
        · intro msg
          simp [transmitMessage]

/-- Witness for C10: a failed reconnect (SerialException) from a live
connected panel leaves the handle closed and a write reporting
`Not connected.`. -/
theorem failed_reconnect_leaves_disconnected_witness :
    goodStateB connectedPanel = true ∧
    (OpenResult.serialException ≠ OpenResult.opened) ∧
    (connectOk .serialException connectedPanel).1.serial_connection.is_open
      = false ∧
    (transmitMessage (connectOk .serialException connectedPanel).1
      "CMD:IGN\n").2 = .notConnected := by
  have h := failed_reconnect_leaves_disconnected connectedPanel
    (connectOk .serialException connectedPanel).1 .serialException
    (connectOk .serialException connectedPanel).2 rfl (by decide) rfl
  exact ⟨rfl, by decide, h.1, (h.2.2.2.1 "CMD:IGN\n").1⟩

end GCS
